import Mathlib

/-!
Shallow embedding of `d3d9-device-grabber` (src/lib.rs).

The crate's only logic is `get_d3d9_device`, which resolves a window handle
owned by the current process (`get_process_window`), creates the D3D9 factory,
attempts device creation with `Windowed = FALSE`, retries once with the
windowed flag bitwise-negated if the first attempt returns a non-zero code,
and finally validates the device pointer via `as_mut()`.

Modelling conventions:
- pointers and window handles (`HWND`, `*mut IDirect3DDevice9`) are `Nat`,
  with `0` standing for the null pointer;
- Win32 `BOOL` and `HRESULT` (`i32`) are `Int`;
- ambient OS and driver state is an `Env` oracle: the current process id, the
  `EnumWindows` enumeration order (handle, owning pid), whether
  `Direct3DCreate9` returns null, and the driver's response to each
  `CreateDevice` call (result code, and the value it writes into the device
  out-pointer slot, `none` when it leaves the slot untouched);
- the embedding additionally records a trace of the external calls made
  (`Direct3DCreate9` and `CreateDevice` with full arguments) so that claims
  about which calls occur are provable.
-/

namespace D3D9Grab

/-- Win32 `FALSE` as a `BOOL` (`i32`). -/
def FALSE : Int := 0

/-- `D3D_SDK_VERSION` for D3D9. -/
def D3D_SDK_VERSION : Nat := 32

/-- `D3DSWAPEFFECT_DISCARD`. -/
def D3DSWAPEFFECT_DISCARD : Nat := 1

/-- `D3DADAPTER_DEFAULT`. -/
def D3DADAPTER_DEFAULT : Nat := 0

/-- `D3DDEVTYPE_HAL`. -/
def D3DDEVTYPE_HAL : Nat := 1

/-- `D3DCREATE_SOFTWARE_VERTEXPROCESSING` (`0x20`). -/
def D3DCREATE_SOFTWARE_VERTEXPROCESSING : Nat := 32

/-- Rust's `!` on an `i32`-valued `BOOL`: bitwise complement. On any value in
the `i32` range this is `-1 - x` (two's complement), so `!FALSE = -1`, which
is truthy as a `BOOL` (non-zero means `TRUE`). -/
def rustNot (x : Int) : Int := -1 - x

/-- Truth value of a Win32 `BOOL`: any non-zero value counts as true. -/
def boolOfBOOL (b : Int) : Bool := b ≠ 0

/-- The `D3DPRESENT_PARAMETERS` struct exactly as populated in `lib.rs`
(field for field). `Windowed` is a `BOOL`; every other field is an unsigned
machine integer or a handle, modelled as `Nat`. -/
structure D3DPRESENT_PARAMETERS where
  BackBufferWidth : Nat
  BackBufferHeight : Nat
  BackBufferFormat : Nat
  BackBufferCount : Nat
  MultiSampleType : Nat
  MultiSampleQuality : Nat
  SwapEffect : Nat
  hDeviceWindow : Nat
  Windowed : Int
  EnableAutoDepthStencil : Nat
  AutoDepthStencilFormat : Nat
  Flags : Nat
  FullScreen_RefreshRateInHz : Nat
  PresentationInterval : Nat
deriving DecidableEq, Repr

/-- The full argument tuple of an `IDirect3D9::CreateDevice` call as issued by
`get_d3d9_device` (adapter, device type, focus window, behavior flags, and the
presentation parameters passed by pointer). -/
structure CreateDeviceArgs where
  Adapter : Nat
  DeviceType : Nat
  hFocusWindow : Nat
  BehaviorFlags : Nat
  pp : D3DPRESENT_PARAMETERS
deriving DecidableEq, Repr

/-- One external graphics-runtime call made by `get_d3d9_device`. -/
inductive Event where
  | direct3DCreate9 (sdkVersion : Nat)
  | createDevice (args : CreateDeviceArgs)
deriving DecidableEq, Repr

/-- The `D3D9GrabError` enum from `lib.rs`, constructor for constructor.
`CreateDeviceError` carries the raw `i32` result code. -/
inductive D3D9GrabError where
  | AsMutError
  | CreateDeviceError (code : Int)
  | D3DCreate9Null
  | GetProcessWindowFailed
deriving DecidableEq, Repr

/-- Ambient OS and driver state observed by one invocation:
`currentPid` is `GetCurrentProcessId()`; `windows` is the sequence of
`(hwnd, owning pid)` pairs `EnumWindows` presents, in enumeration order;
`d3d9Null` says whether `Direct3DCreate9` returns null; `createDevice` gives,
for a `CreateDevice` call with the given arguments, the returned result code
and the value the driver writes into the device out-pointer slot (`none` when
the driver leaves the slot untouched). -/
structure Env where
  currentPid : Nat
  windows : List (Nat × Nat)
  d3d9Null : Bool
  createDevice : CreateDeviceArgs → Int × Option Nat

/-- The `EnumWindows` loop of `get_process_window`: the callback reads the
owning pid of each window; on mismatch it returns `TRUE` (continue), on match
it writes the handle into the `hwnd` slot and returns `FALSE` (stop).
Returns the final slot value (initially null) together with the list of
handles the callback examined, in order. -/
def enum_windows_loop (pid : Nat) : List (Nat × Nat) → Nat × List Nat
  | [] => (0, [])
  | (hwnd, wndProcId) :: rest =>
      if pid ≠ wndProcId then
        let r := enum_windows_loop pid rest
        (r.1, hwnd :: r.2)
      else
        (hwnd, [hwnd])

/-- `get_process_window` from `lib.rs`: run the `EnumWindows` loop, then
return `None` if the slot is still null and `Some hwnd` otherwise. -/
def get_process_window (env : Env) : Option Nat :=
  let hwnd := (enum_windows_loop env.currentPid env.windows).1
  if hwnd = 0 then none else some hwnd

/-- The handles examined by the `EnumWindows` callback during
`get_process_window`, in order. -/
def examined_windows (env : Env) : List Nat :=
  (enum_windows_loop env.currentPid env.windows).2

/-- The `D3DPRESENT_PARAMETERS` literal built in `get_d3d9_device`:
all-zero back-buffer and refresh fields, `SwapEffect = DISCARD`,
`hDeviceWindow = window`, `Windowed = FALSE`. -/
def initial_present_params (window : Nat) : D3DPRESENT_PARAMETERS :=
  { BackBufferWidth := 0
    BackBufferHeight := 0
    BackBufferFormat := 0
    BackBufferCount := 0
    MultiSampleType := 0
    MultiSampleQuality := 0
    SwapEffect := D3DSWAPEFFECT_DISCARD
    hDeviceWindow := window
    Windowed := FALSE
    EnableAutoDepthStencil := 0
    AutoDepthStencilFormat := 0
    Flags := 0
    FullScreen_RefreshRateInHz := 0
    PresentationInterval := 0 }

/-- The argument tuple `get_d3d9_device` passes to `CreateDevice`: default
adapter, HAL device type, `pp.hDeviceWindow` as the focus window, software
vertex processing, and the given presentation parameters. Both attempts use
this same shape (only `pp` differs). -/
def attempt_args (pp : D3DPRESENT_PARAMETERS) : CreateDeviceArgs :=
  { Adapter := D3DADAPTER_DEFAULT
    DeviceType := D3DDEVTYPE_HAL
    hFocusWindow := pp.hDeviceWindow
    BehaviorFlags := D3DCREATE_SOFTWARE_VERTEXPROCESSING
    pp := pp }

/-- `get_d3d9_device` from `lib.rs`, returning the `Result` together with the
trace of external graphics-runtime calls. The device out-pointer slot starts
null; each `CreateDevice` call may overwrite it; the final `as_mut()` check
fails (`AsMutError`) exactly when the slot is still null. -/
def get_d3d9_device (env : Env) : Except D3D9GrabError Nat × List Event :=
  match get_process_window env with
  | none => (Except.error D3D9GrabError.GetProcessWindowFailed, [])
  | some window =>
    if env.d3d9Null then
      (Except.error D3D9GrabError.D3DCreate9Null,
        [Event.direct3DCreate9 D3D_SDK_VERSION])
    else
      let present_params := initial_present_params window
      let args1 := attempt_args present_params
      let r1 := env.createDevice args1
      let slot1 := r1.2.getD 0
      if r1.1 ≠ 0 then
        let present_params2 :=
          { present_params with Windowed := rustNot present_params.Windowed }
        let args2 := attempt_args present_params2
        let r2 := env.createDevice args2
        let slot2 := r2.2.getD slot1
        let trace2 := [Event.direct3DCreate9 D3D_SDK_VERSION,
          Event.createDevice args1, Event.createDevice args2]
        if r2.1 ≠ 0 then
          (Except.error (D3D9GrabError.CreateDeviceError r2.1), trace2)
        else if slot2 = 0 then
          (Except.error D3D9GrabError.AsMutError, trace2)
        else
          (Except.ok slot2, trace2)
      else
        let trace1 := [Event.direct3DCreate9 D3D_SDK_VERSION,
          Event.createDevice args1]
        if slot1 = 0 then
          (Except.error D3D9GrabError.AsMutError, trace1)
        else
          (Except.ok slot1, trace1)

/-- The `CreateDevice` calls recorded in a trace, with their arguments. -/
def device_calls (tr : List Event) : List CreateDeviceArgs :=
  tr.filterMap fun e =>
    match e with
    | Event.createDevice a => some a
    | _ => none

/-- The number of `Direct3DCreate9` (factory-creation) calls in a trace. -/
def factory_calls (tr : List Event) : Nat :=
  (tr.filter fun e =>
    match e with
    | Event.direct3DCreate9 _ => true
    | _ => false).length

/-- Arguments of device-creation attempt #1 for the resolved window `w`. -/
def attempt1_args (w : Nat) : CreateDeviceArgs :=
  attempt_args (initial_present_params w)

/-- The presentation parameters of the fallback attempt: attempt #1's with the
`Windowed` flag bitwise-negated in place. -/
def fallback_present_params (w : Nat) : D3DPRESENT_PARAMETERS :=
  { initial_present_params w with
      Windowed := rustNot (initial_present_params w).Windowed }

/-- Arguments of device-creation attempt #2 for the resolved window `w`. -/
def attempt2_args (w : Nat) : CreateDeviceArgs :=
  attempt_args (fallback_present_params w)

/-- `a` agrees with `b` on every `D3DPRESENT_PARAMETERS` field except
possibly `Windowed`. -/
def same_except_windowed (a b : D3DPRESENT_PARAMETERS) : Prop :=
  a.BackBufferWidth = b.BackBufferWidth ∧
  a.BackBufferHeight = b.BackBufferHeight ∧
  a.BackBufferFormat = b.BackBufferFormat ∧
  a.BackBufferCount = b.BackBufferCount ∧
  a.MultiSampleType = b.MultiSampleType ∧
  a.MultiSampleQuality = b.MultiSampleQuality ∧
  a.SwapEffect = b.SwapEffect ∧
  a.hDeviceWindow = b.hDeviceWindow ∧
  a.EnableAutoDepthStencil = b.EnableAutoDepthStencil ∧
  a.AutoDepthStencilFormat = b.AutoDepthStencilFormat ∧
  a.Flags = b.Flags ∧
  a.FullScreen_RefreshRateInHz = b.FullScreen_RefreshRateInHz ∧
  a.PresentationInterval = b.PresentationInterval

/-- `a` and `b` pass the same adapter, device type, focus window and
behavior flags to `CreateDevice`. -/
def same_call_shape (a b : CreateDeviceArgs) : Prop :=
  a.Adapter = b.Adapter ∧ a.DeviceType = b.DeviceType ∧
  a.hFocusWindow = b.hFocusWindow ∧ a.BehaviorFlags = b.BehaviorFlags

/-- A driver that succeeds at once, writing the device pointer `7`. -/
def cdOk : CreateDeviceArgs → Int × Option Nat := fun _ => (0, some 7)

/-- A driver that fails the fullscreen attempt with code `3` and succeeds on
the windowed retry, writing the device pointer `5`. -/
def cdFallback : CreateDeviceArgs → Int × Option Nat :=
  fun a => if a.pp.Windowed = 0 then (3, none) else (0, some 5)

/-- A driver that fails the fullscreen attempt with code `3` and the windowed
retry with code `4`. -/
def cdBothFail : CreateDeviceArgs → Int × Option Nat :=
  fun a => if a.pp.Windowed = 0 then (3, none) else (4, none)

/-- A driver that reports success but never writes the device pointer. -/
def cdNullOk : CreateDeviceArgs → Int × Option Nat := fun _ => (0, none)

/-- Process 1 owns window 5; the driver succeeds at once. -/
def envOk : Env := ⟨1, [(5, 1)], false, cdOk⟩

/-- Process 1 owns window 5; only the windowed retry succeeds. -/
def envFallback : Env := ⟨1, [(5, 1)], false, cdFallback⟩

/-- Process 1 owns window 5; both creation attempts fail. -/
def envBothFail : Env := ⟨1, [(5, 1)], false, cdBothFail⟩

/-- Process 1 owns window 5; creation succeeds but yields a null device. -/
def envNullDev : Env := ⟨1, [(5, 1)], false, cdNullOk⟩

/-- Process 1 owns no window (the only window belongs to process 2). -/
def envNoWin : Env := ⟨1, [(6, 2)], false, cdOk⟩

/-- Process 1 owns window 5, but `Direct3DCreate9` returns null. -/
def envFacNull : Env := ⟨1, [(5, 1)], true, cdOk⟩

/-- Process 7; enumeration shows a foreign window first, then two windows
owned by process 7 (handles 2 and 9). -/
def envC4 : Env := ⟨7, [(1, 3), (2, 7), (9, 7)], false, cdOk⟩

/-- Execution path: the window resolver returns `none`. -/
theorem run_no_window (env : Env) (hw : get_process_window env = none) :
    get_d3d9_device env =
      (Except.error D3D9GrabError.GetProcessWindowFailed, []) := by
  unfold get_d3d9_device
  rw [hw]

/-- Execution path: window resolved, factory creation returns null. -/
theorem run_factory_null (env : Env) (w : Nat)
    (hw : get_process_window env = some w) (hf : env.d3d9Null = true) :
    get_d3d9_device env =
      (Except.error D3D9GrabError.D3DCreate9Null,
        [Event.direct3DCreate9 D3D_SDK_VERSION]) := by
  unfold get_d3d9_device
  rw [hw]
  simp [hf]

/-- Execution path: window resolved, factory ok, attempt #1 returns code 0.
No second attempt; the result is the `as_mut` check on the slot value the
first call left behind. -/
theorem run_first_ok (env : Env) (w : Nat)
    (hw : get_process_window env = some w) (hf : env.d3d9Null = false)
    (h1 : (env.createDevice (attempt1_args w)).1 = 0) :
    get_d3d9_device env =
      (if (env.createDevice (attempt1_args w)).2.getD 0 = 0 then
          Except.error D3D9GrabError.AsMutError
        else Except.ok ((env.createDevice (attempt1_args w)).2.getD 0),
        [Event.direct3DCreate9 D3D_SDK_VERSION,
          Event.createDevice (attempt1_args w)]) := by
  unfold get_d3d9_device
  rw [hw]
  simp only [hf, Bool.false_eq_true, if_false, attempt1_args] at *
  rw [if_neg (by simp [h1])]
  split <;> rfl

/-- Execution path: window resolved, factory ok, attempt #1 returns a
non-zero code. Exactly one retry with the windowed flag negated; the result
depends on the second code and on the final slot value. -/
theorem run_fallback (env : Env) (w : Nat)
    (hw : get_process_window env = some w) (hf : env.d3d9Null = false)
    (h1 : (env.createDevice (attempt1_args w)).1 ≠ 0) :
    get_d3d9_device env =
      (if (env.createDevice (attempt2_args w)).1 ≠ 0 then
          Except.error
            (D3D9GrabError.CreateDeviceError (env.createDevice (attempt2_args w)).1)
        else if (env.createDevice (attempt2_args w)).2.getD
            ((env.createDevice (attempt1_args w)).2.getD 0) = 0 then
          Except.error D3D9GrabError.AsMutError
        else
          Except.ok ((env.createDevice (attempt2_args w)).2.getD
            ((env.createDevice (attempt1_args w)).2.getD 0)),
        [Event.direct3DCreate9 D3D_SDK_VERSION,
          Event.createDevice (attempt1_args w),
          Event.createDevice (attempt2_args w)]) := by
  unfold get_d3d9_device
  rw [hw]
  simp only [hf, Bool.false_eq_true, if_false, attempt1_args,
    attempt2_args, fallback_present_params] at *
  rw [if_pos h1]
  split <;> [rfl; split <;> rfl]

/-- C1: if the first device-creation attempt returns a non-zero code, exactly
one retry occurs; the retry's arguments have the same adapter, device type,
focus window and behavior flags, its presentation config differs from the
first attempt's only in the windowed flag, and that flag is the boolean
negation of the first value — false on attempt #1, true on attempt #2. -/
theorem c1_fallback_config_invariant (env : Env) (w : Nat)
    (hw : get_process_window env = some w)
    (hf : env.d3d9Null = false)
    (h1 : (env.createDevice (attempt1_args w)).1 ≠ 0) :
    ∃ a1 a2, device_calls (get_d3d9_device env).2 = [a1, a2] ∧
      a1 = attempt1_args w ∧
      same_call_shape a2 a1 ∧
      same_except_windowed a2.pp a1.pp ∧
      boolOfBOOL a2.pp.Windowed = (!(boolOfBOOL a1.pp.Windowed)) ∧
      boolOfBOOL a1.pp.Windowed = false ∧
      boolOfBOOL a2.pp.Windowed = true := by
  refine ⟨attempt1_args w, attempt2_args w, ?_, rfl, ?_, ?_, ?_, ?_, ?_⟩
  · rw [run_fallback env w hw hf h1]
    rfl
  · exact ⟨rfl, rfl, rfl, rfl⟩
  · exact ⟨rfl, rfl, rfl, rfl, rfl, rfl, rfl, rfl, rfl, rfl, rfl, rfl, rfl⟩
  · rfl
  · rfl
  · rfl

/-- Witness for C1 at the concrete environment `envFallback`. -/
theorem c1_witness :
    ∃ a1 a2, device_calls (get_d3d9_device envFallback).2 = [a1, a2] ∧
      a1 = attempt1_args 5 ∧
      same_call_shape a2 a1 ∧
      same_except_windowed a2.pp a1.pp ∧
      boolOfBOOL a2.pp.Windowed = (!(boolOfBOOL a1.pp.Windowed)) ∧
      boolOfBOOL a1.pp.Windowed = false ∧
      boolOfBOOL a2.pp.Windowed = true :=
  c1_fallback_config_invariant envFallback 5 rfl rfl (by decide)

/-- C2: if both attempts return non-zero codes, the result is a
`CreateDeviceError` carrying exactly the second attempt's code; whenever the
two codes differ, the carried code is not the first attempt's. -/
theorem c2_final_error_only (env : Env) (w : Nat)
    (hw : get_process_window env = some w)
    (hf : env.d3d9Null = false)
    (h1 : (env.createDevice (attempt1_args w)).1 ≠ 0)
    (h2 : (env.createDevice (attempt2_args w)).1 ≠ 0) :
    (get_d3d9_device env).1 =
      Except.error
        (D3D9GrabError.CreateDeviceError (env.createDevice (attempt2_args w)).1) ∧
    ∀ c, (get_d3d9_device env).1 =
        Except.error (D3D9GrabError.CreateDeviceError c) →
      c = (env.createDevice (attempt2_args w)).1 ∧
      ((env.createDevice (attempt1_args w)).1 ≠ (env.createDevice (attempt2_args w)).1 →
        c ≠ (env.createDevice (attempt1_args w)).1) := by
  rw [run_fallback env w hw hf h1, if_pos h2]
  refine ⟨rfl, ?_⟩
  intro c hc
  have hce : c = (env.createDevice (attempt2_args w)).1 := by
    injection hc with h
    injection h with h
    exact h.symm
  subst hce
  exact ⟨rfl, fun hne hca => hne hca.symm⟩

/-- Witness for C2 at the concrete environment `envBothFail`. -/
theorem c2_witness :
    (get_d3d9_device envBothFail).1 =
      Except.error
        (D3D9GrabError.CreateDeviceError (envBothFail.createDevice (attempt2_args 5)).1) ∧
    ∀ c, (get_d3d9_device envBothFail).1 =
        Except.error (D3D9GrabError.CreateDeviceError c) →
      c = (envBothFail.createDevice (attempt2_args 5)).1 ∧
      ((envBothFail.createDevice (attempt1_args 5)).1 ≠
          (envBothFail.createDevice (attempt2_args 5)).1 →
        c ≠ (envBothFail.createDevice (attempt1_args 5)).1) :=
  c2_final_error_only envBothFail 5 rfl rfl (by decide) (by decide)

/-- C3: if the first attempt returns code 0, no second `CreateDevice` call is
made, any returned device is the pointer the first call produced, and when
that pointer is non-null it is returned as the success value. -/
theorem c3_success_short_circuit (env : Env) (w : Nat)
    (hw : get_process_window env = some w)
    (hf : env.d3d9Null = false)
    (h1 : (env.createDevice (attempt1_args w)).1 = 0) :
    device_calls (get_d3d9_device env).2 = [attempt1_args w] ∧
    (∀ d, (get_d3d9_device env).1 = Except.ok d →
      d = (env.createDevice (attempt1_args w)).2.getD 0) ∧
    ((env.createDevice (attempt1_args w)).2.getD 0 ≠ 0 →
      (get_d3d9_device env).1 =
        Except.ok ((env.createDevice (attempt1_args w)).2.getD 0)) := by
  rw [run_first_ok env w hw hf h1]
  refine ⟨rfl, ?_, ?_⟩
  · intro d hd
    by_cases hs : (env.createDevice (attempt1_args w)).2.getD 0 = 0
    · rw [if_pos hs] at hd
      cases hd
    · rw [if_neg hs] at hd
      injection hd with h
      exact h.symm
  · intro hs
    rw [if_neg hs]

/-- Witness for C3 at the concrete environment `envOk`. -/
theorem c3_witness :
    device_calls (get_d3d9_device envOk).2 = [attempt1_args 5] ∧
    (∀ d, (get_d3d9_device envOk).1 = Except.ok d →
      d = (envOk.createDevice (attempt1_args 5)).2.getD 0) ∧
    ((envOk.createDevice (attempt1_args 5)).2.getD 0 ≠ 0 →
      (get_d3d9_device envOk).1 =
        Except.ok ((envOk.createDevice (attempt1_args 5)).2.getD 0)) :=
  c3_success_short_circuit envOk 5 rfl rfl rfl

/-- C5: if the window resolver returns `none`, the routine fails with
`GetProcessWindowFailed`, makes no factory-creation call and no
device-creation call. -/
theorem c5_no_window_failure (env : Env)
    (hw : get_process_window env = none) :
    (get_d3d9_device env).1 = Except.error D3D9GrabError.GetProcessWindowFailed ∧
    factory_calls (get_d3d9_device env).2 = 0 ∧
    device_calls (get_d3d9_device env).2 = [] := by
  rw [run_no_window env hw]
  exact ⟨rfl, rfl, rfl⟩

/-- Witness for C5 at the concrete environment `envNoWin`. -/
theorem c5_witness :
    (get_d3d9_device envNoWin).1 = Except.error D3D9GrabError.GetProcessWindowFailed ∧
    factory_calls (get_d3d9_device envNoWin).2 = 0 ∧
    device_calls (get_d3d9_device envNoWin).2 = [] :=
  c5_no_window_failure envNoWin rfl

/-- C6: if factory creation yields a null factory pointer, the routine fails
with `D3DCreate9Null` and makes no device-creation call. -/
theorem c6_factory_null_short_circuit (env : Env) (w : Nat)
    (hw : get_process_window env = some w)
    (hf : env.d3d9Null = true) :
    (get_d3d9_device env).1 = Except.error D3D9GrabError.D3DCreate9Null ∧
    device_calls (get_d3d9_device env).2 = [] := by
  rw [run_factory_null env w hw hf]
  exact ⟨rfl, rfl⟩

/-- Witness for C6 at the concrete environment `envFacNull`. -/
theorem c6_witness :
    (get_d3d9_device envFacNull).1 = Except.error D3D9GrabError.D3DCreate9Null ∧
    device_calls (get_d3d9_device envFacNull).2 = [] :=
  c6_factory_null_short_circuit envFacNull 5 rfl rfl

/-- C9: the fallback retry is triggered only by a non-zero result code; if the
first attempt returns code 0 but leaves the device pointer null, no second
attempt is made and the routine fails with `AsMutError`. -/
theorem c9_no_retry_on_null_success (env : Env) (w : Nat)
    (hw : get_process_window env = some w)
    (hf : env.d3d9Null = false)
    (h1 : (env.createDevice (attempt1_args w)).1 = 0)
    (hs : (env.createDevice (attempt1_args w)).2.getD 0 = 0) :
    device_calls (get_d3d9_device env).2 = [attempt1_args w] ∧
    (get_d3d9_device env).1 = Except.error D3D9GrabError.AsMutError := by
  rw [run_first_ok env w hw hf h1, if_pos hs]
  exact ⟨rfl, rfl⟩

/-- Witness for C9 at the concrete environment `envNullDev`. -/
theorem c9_witness :
    device_calls (get_d3d9_device envNullDev).2 = [attempt1_args 5] ∧
    (get_d3d9_device envNullDev).1 = Except.error D3D9GrabError.AsMutError :=
  c9_no_retry_on_null_success envNullDev 5 rfl rfl rfl rfl

/-- When no enumerated window is owned by `pid`, the loop examines every
window, and the `hwnd` slot keeps its initial null value. -/
theorem enum_windows_loop_no_match (pid : Nat) (l : List (Nat × Nat))
    (hl : ∀ p ∈ l, p.2 ≠ pid) :
    enum_windows_loop pid l = (0, l.map Prod.fst) := by
  induction l with
  | nil => rfl
  | cons a rest ih =>
      obtain ⟨hwnd, wpid⟩ := a
      have ha : pid ≠ wpid := fun hh => hl (hwnd, wpid) (by simp) hh.symm
      simp only [enum_windows_loop, if_pos ha,
        ih fun p hp => hl p (List.mem_cons_of_mem _ hp), List.map_cons]

/-- When the enumeration is `pre ++ (h, pid) :: post` with no match in `pre`,
the loop stops at `(h, pid)`: the slot receives `h` and only the windows of
`pre` plus `h` itself are examined. -/
theorem enum_windows_loop_match (pid : Nat) (pre post : List (Nat × Nat))
    (h : Nat) (hpre : ∀ p ∈ pre, p.2 ≠ pid) :
    enum_windows_loop pid (pre ++ (h, pid) :: post) =
      (h, pre.map Prod.fst ++ [h]) := by
  induction pre with
  | nil => simp [enum_windows_loop]
  | cons a rest ih =>
      obtain ⟨hwnd, wpid⟩ := a
      have ha : pid ≠ wpid := fun hh => hpre (hwnd, wpid) (by simp) hh.symm
      simp only [List.cons_append, enum_windows_loop, if_pos ha, List.append_eq,
        ih fun p hp => hpre p (List.mem_cons_of_mem _ hp), List.map_cons]

/-- C4: `get_process_window` returns `Some` of the first enumerated window
owned by the current process, examining no window past that match, and
returns `None` when no enumerated window is owned by the current process.
(The OS never hands the callback a null handle, hence the `h ≠ 0`
hypothesis on the match case.) -/
theorem c4_first_match_wins (env : Env) :
    (∀ pre h post, env.windows = pre ++ (h, env.currentPid) :: post →
        (∀ p ∈ pre, p.2 ≠ env.currentPid) → h ≠ 0 →
        get_process_window env = some h ∧
        examined_windows env = pre.map Prod.fst ++ [h]) ∧
    ((∀ p ∈ env.windows, p.2 ≠ env.currentPid) →
      get_process_window env = none) := by
  constructor
  · intro pre h post hwin hpre hh
    unfold get_process_window examined_windows
    rw [hwin, enum_windows_loop_match env.currentPid pre post h hpre]
    exact ⟨by simp [hh], rfl⟩
  · intro hall
    unfold get_process_window
    rw [enum_windows_loop_no_match env.currentPid env.windows hall]
    rfl

/-- Witness for C4: at `envC4` the foreign window 1 is skipped, window 2 is
returned and window 9 is never examined; at `envNoWin` no window matches. -/
theorem c4_witness :
    (get_process_window envC4 = some 2 ∧ examined_windows envC4 = [1, 2]) ∧
    get_process_window envNoWin = none :=
  ⟨(c4_first_match_wins envC4).1 [(1, 3)] 2 [(9, 7)] rfl (by decide) (by decide),
   (c4_first_match_wins envNoWin).2 (by decide)⟩

/-- C7: a creation call that reports success (code 0) but leaves the device
pointer null yields `AsMutError` — on either attempt — and a successful
return always carries a non-null device pointer. -/
theorem c7_validity_gate (env : Env) (w : Nat)
    (hw : get_process_window env = some w)
    (hf : env.d3d9Null = false) :
    ((env.createDevice (attempt1_args w)).1 = 0 ∧
        (env.createDevice (attempt1_args w)).2.getD 0 = 0 →
      (get_d3d9_device env).1 = Except.error D3D9GrabError.AsMutError) ∧
    ((env.createDevice (attempt1_args w)).1 ≠ 0 ∧
        (env.createDevice (attempt2_args w)).1 = 0 ∧
        (env.createDevice (attempt2_args w)).2.getD
          ((env.createDevice (attempt1_args w)).2.getD 0) = 0 →
      (get_d3d9_device env).1 = Except.error D3D9GrabError.AsMutError) ∧
    (∀ d, (get_d3d9_device env).1 = Except.ok d → d ≠ 0) := by
  refine ⟨?_, ?_, ?_⟩
  · rintro ⟨h1, hs⟩
    rw [run_first_ok env w hw hf h1, if_pos hs]
  · rintro ⟨h1, h2, hs⟩
    rw [run_fallback env w hw hf h1, if_neg (by simp [h2]), if_pos hs]
  · intro d hd
    by_cases h1 : (env.createDevice (attempt1_args w)).1 = 0
    · rw [run_first_ok env w hw hf h1] at hd
      by_cases hs : (env.createDevice (attempt1_args w)).2.getD 0 = 0
      · rw [if_pos hs] at hd
        cases hd
      · rw [if_neg hs] at hd
        injection hd with he
        exact he ▸ hs
    · rw [run_fallback env w hw hf h1] at hd
      by_cases h2 : (env.createDevice (attempt2_args w)).1 ≠ 0
      · rw [if_pos h2] at hd
        cases hd
      · rw [if_neg h2] at hd
        by_cases hs : (env.createDevice (attempt2_args w)).2.getD
            ((env.createDevice (attempt1_args w)).2.getD 0) = 0
        · rw [if_pos hs] at hd
          cases hd
        · rw [if_neg hs] at hd
          injection hd with he
          exact he ▸ hs

/-- Witness for C7 at the concrete environment `envNullDev`: the first call
reports code 0 without writing the pointer, and the result is `AsMutError`. -/
theorem c7_witness :
    (get_d3d9_device envNullDev).1 = Except.error D3D9GrabError.AsMutError :=
  (c7_validity_gate envNullDev 5 rfl rfl).1 ⟨rfl, rfl⟩

/-- C8: every error the routine returns is one of the four `D3D9GrabError`
kinds, at most one factory-creation call is made, and at most two
device-creation calls are made (the single fallback retry and nothing more). -/
theorem c8_closed_error_taxonomy (env : Env) :
    (device_calls (get_d3d9_device env).2).length ≤ 2 ∧
    factory_calls (get_d3d9_device env).2 ≤ 1 ∧
    ∀ e, (get_d3d9_device env).1 = Except.error e →
      e = D3D9GrabError.GetProcessWindowFailed ∨
      e = D3D9GrabError.D3DCreate9Null ∨
      (∃ c, e = D3D9GrabError.CreateDeviceError c) ∨
      e = D3D9GrabError.AsMutError := by
  rcases hgw : get_process_window env with _ | w
  · rw [run_no_window env hgw]
    refine ⟨by decide, by decide, ?_⟩
    intro e he
    injection he with he
    exact Or.inl he.symm
  · rcases hf : env.d3d9Null with _ | _
    · by_cases h1 : (env.createDevice (attempt1_args w)).1 = 0
      · rw [run_first_ok env w hgw hf h1]
        refine ⟨by simp [device_calls], by simp [factory_calls], ?_⟩
        intro e he
        by_cases hs : (env.createDevice (attempt1_args w)).2.getD 0 = 0
        · rw [if_pos hs] at he
          injection he with he
          exact Or.inr (Or.inr (Or.inr he.symm))
        · rw [if_neg hs] at he
          cases he
      · rw [run_fallback env w hgw hf h1]
        refine ⟨by simp [device_calls], by simp [factory_calls], ?_⟩
        intro e he
        by_cases h2 : (env.createDevice (attempt2_args w)).1 ≠ 0
        · rw [if_pos h2] at he
          injection he with he
          exact Or.inr (Or.inr (Or.inl ⟨_, he.symm⟩))
        · rw [if_neg h2] at he
          by_cases hs : (env.createDevice (attempt2_args w)).2.getD
              ((env.createDevice (attempt1_args w)).2.getD 0) = 0
          · rw [if_pos hs] at he
            injection he with he
            exact Or.inr (Or.inr (Or.inr he.symm))
          · rw [if_neg hs] at he
            cases he
    · rw [run_factory_null env w hgw hf]
      refine ⟨by decide, by decide, ?_⟩
      intro e he
      injection he with he
      exact Or.inr (Or.inl he.symm)

/-- Witness for C8 at the concrete environment `envBothFail`. -/
theorem c8_witness :
    (device_calls (get_d3d9_device envBothFail).2).length ≤ 2 ∧
    (D3D9GrabError.CreateDeviceError 4 = D3D9GrabError.GetProcessWindowFailed ∨
     D3D9GrabError.CreateDeviceError 4 = D3D9GrabError.D3DCreate9Null ∨
     (∃ c, D3D9GrabError.CreateDeviceError 4 = D3D9GrabError.CreateDeviceError c) ∨
     D3D9GrabError.CreateDeviceError 4 = D3D9GrabError.AsMutError) :=
  ⟨(c8_closed_error_taxonomy envBothFail).1,
   (c8_closed_error_taxonomy envBothFail).2.2 (D3D9GrabError.CreateDeviceError 4) rfl⟩

/-- C10: `get_process_window` never returns `Some` of a null handle, and
every `CreateDevice` call the routine makes passes a non-null window both as
`hDeviceWindow` and as the focus window. -/
theorem c10_nonnull_window_handle (env : Env) :
    (∀ h, get_process_window env = some h → h ≠ 0) ∧
    (∀ a ∈ device_calls (get_d3d9_device env).2,
      a.pp.hDeviceWindow ≠ 0 ∧ a.hFocusWindow ≠ 0) := by
  have hA : ∀ h, get_process_window env = some h → h ≠ 0 := by
    intro h hh
    unfold get_process_window at hh
    by_cases hz : (enum_windows_loop env.currentPid env.windows).1 = 0
    · rw [if_pos hz] at hh
      cases hh
    · rw [if_neg hz] at hh
      injection hh with he
      exact he ▸ hz
  refine ⟨hA, ?_⟩
  rcases hgw : get_process_window env with _ | w
  · rw [run_no_window env hgw]
    intro a ha
    cases ha
  · have hwnz : w ≠ 0 := hA w hgw
    rcases hf : env.d3d9Null with _ | _
    · by_cases h1 : (env.createDevice (attempt1_args w)).1 = 0
      · rw [run_first_ok env w hgw hf h1]
        intro a ha
        have : a = attempt1_args w := by
          simpa [device_calls] using ha
        subst this
        exact ⟨hwnz, hwnz⟩
      · rw [run_fallback env w hgw hf h1]
        intro a ha
        have : a = attempt1_args w ∨ a = attempt2_args w := by
          simpa [device_calls] using ha
        rcases this with rfl | rfl
        · exact ⟨hwnz, hwnz⟩
        · exact ⟨hwnz, hwnz⟩
    · rw [run_factory_null env w hgw hf]
      intro a ha
      cases ha

/-- Witness for C10: at `envC4` the resolved handle 2 is non-null, and at
`envOk` the single `CreateDevice` call carries the non-null window 5. -/
theorem c10_witness :
    (2 : Nat) ≠ 0 ∧
    ((attempt1_args 5).pp.hDeviceWindow ≠ 0 ∧ (attempt1_args 5).hFocusWindow ≠ 0) :=
  ⟨(c10_nonnull_window_handle envC4).1 2 rfl,
   (c10_nonnull_window_handle envOk).2 (attempt1_args 5) (by decide)⟩

end D3D9Grab
